import Mathlib

/-!
Verification of the pandas-assignment grading engine.

The development shallowly embeds the grading scripts
(`BaseGradingEngine.py`, `calculate_grade.py`, `calculate_grade_old.py`,
`grade_assignment.py`).  Python text is modelled as `List Char` (one
list per line, mirroring `content.split('\n')`); Python numbers are
modelled as exact rationals `ℚ`; Python dictionaries keyed by component
id are modelled as association lists; a Python `dict.get(k, default)`
becomes `Option.getD`; code that can raise returns `Except`.
-/

namespace Grading

/-! ## Text helpers (Python `str` operations on `List Char`) -/

/-- One line of source or test output text. -/
abbrev Line := List Char

/-- Convert a string literal to the character-list representation. -/
def cl (s : String) : List Char := s.toList

/-- Characters removed by Python `str.strip()`. -/
def isPySpace (c : Char) : Bool :=
  c == ' ' || c == '\t' || c == '\n' || c == '\x0d' || c == '\x0b' || c == '\x0c'

/-- Python `str.strip()`: drop leading and trailing whitespace. -/
def pyStrip (l : List Char) : List Char :=
  ((l.dropWhile isPySpace).reverse.dropWhile isPySpace).reverse

/-- Python `needle in hay` substring test. -/
def chContains (hay needle : List Char) : Bool :=
  match hay with
  | [] => needle.isPrefixOf ([] : List Char)
  | _ :: rest => needle.isPrefixOf hay || chContains rest needle

/-- Python `str.startswith`. -/
def chStarts (l p : List Char) : Bool := p.isPrefixOf l

/-! ## Python `round` on rationals

Python floats are modelled as exact rationals; `round(x, n)` is
round-half-to-even at the `n`-th decimal. -/

/-- Round to the nearest integer, ties to even (Python `round`). -/
def roundHalfEven (q : ℚ) : ℤ :=
  let f := ⌊q⌋
  let frac : ℚ := q - (f : ℚ)
  if frac < 1/2 then f
  else if 1/2 < frac then f + 1
  else if f % 2 = 0 then f else f + 1

/-- Python `round(q, ndigits)` on rationals. -/
def pyRound (ndigits : ℕ) (q : ℚ) : ℚ :=
  (roundHalfEven (q * 10 ^ ndigits) : ℚ) / 10 ^ ndigits

/-! ## BaseGradingEngine data model

`TestResult` models a per-component result dictionary.  Each field is
an `Option`: `none` means the key is absent from the dictionary, so
Python's `result.get(key, default)` is `Option.getD`. -/

structure TestResult where
  passed : Option Bool := none
  score : Option ℚ := none
  error : Option String := none
  implementation_detected : Option Bool := none
  execution_time : Option ℚ := none
  max_points : Option ℚ := none
  feedback : Option (List String) := none
deriving Repr, DecidableEq

/-- `self.test_results.get(component_id, {})`: the empty dictionary. -/
def emptyResult : TestResult := {}

/-- One entry of the component registry (`define_component_categories`). -/
structure ComponentConfig where
  name : String
  points : ℚ
  description : String := ""
deriving Repr, DecidableEq

/-- `total_points = sum(result.get('score', 0) for result in self.test_results.values())` -/
def base_total_points (results : List (String × TestResult)) : ℚ :=
  (results.map (fun r => r.2.score.getD 0)).sum

/-- `percentage = (total_points / self.total_possible_points) * 100`
(the exact, unrounded value). -/
def exact_percentage (results : List (String × TestResult)) (possible : ℚ) : ℚ :=
  base_total_points results / possible * 100

/-- `BaseGradingEngine.GRADE_THRESHOLDS`, in dictionary insertion order. -/
def GRADE_THRESHOLDS : List (String × ℚ) :=
  [("A", 90), ("B", 80), ("C", 70), ("D", 60), ("F", 0)]

/-- `BaseGradingEngine.calculate_letter_grade`: first threshold (highest
to lowest) with `percentage >= threshold`, else `'F'`. -/
def calculate_letter_grade (percentage : ℚ) : String :=
  match GRADE_THRESHOLDS.find? (fun gt => decide (gt.2 ≤ percentage)) with
  | some gt => gt.1
  | none => "F"

/-- `components_passing = sum(1 for result in ... if result.get('passed', False))` -/
def components_passing (results : List (String × TestResult)) : ℕ :=
  (results.filter (fun r => r.2.passed.getD false)).length

/-- `components_implemented = sum(1 for result in ... if result.get('implementation_detected', True))` -/
def components_implemented (results : List (String × TestResult)) : ℕ :=
  (results.filter (fun r => r.2.implementation_detected.getD true)).length

/-- The `percentage` field stored in the grade report:
`round(percentage, 1)`. -/
def reported_percentage (results : List (String × TestResult)) (possible : ℚ) : ℚ :=
  pyRound 1 (exact_percentage results possible)

/-- `pass_rate` of `performance_summary`:
`round((components_passing / total_components) * 100, 1)`. -/
def pass_rate (results : List (String × TestResult)) (total_components : ℕ) : ℚ :=
  pyRound 1 ((components_passing results : ℚ) / (total_components : ℚ) * 100)

/-- `BaseGradingEngine.get_exit_code`:
`0 if self.grade_report['percentage'] >= 70 else 1`.  Note that the
stored report percentage is the rounded one. -/
def get_exit_code (results : List (String × TestResult)) (possible : ℚ) : ℤ :=
  if 70 ≤ reported_percentage results possible then 0 else 1

/-- `BaseGradingEngine._determine_component_status`. -/
def determine_component_status (tr : TestResult) : String :=
  if tr.passed.getD false then "passed"
  else if tr.implementation_detected.getD true then "implemented_with_errors"
  else "not_implemented"

/-- One entry of the report's `detailed_breakdown`. -/
structure BreakdownEntry where
  component_name : String
  points_earned : ℚ
  points_possible : ℚ
  status : String
deriving Repr, DecidableEq

/-- The entry `_populate_detailed_breakdown` builds for one component:
`test_result = self.test_results.get(component_id, {})`. -/
def breakdown_entry (results : List (String × TestResult)) (id : String)
    (cfg : ComponentConfig) : BreakdownEntry :=
  let tr := (results.lookup id).getD emptyResult
  { component_name := cfg.name
    points_earned := tr.score.getD 0
    points_possible := cfg.points
    status := determine_component_status tr }

/-- `_populate_detailed_breakdown`: one entry per registry component. -/
def detailed_breakdown (registry : List (String × ComponentConfig))
    (results : List (String × TestResult)) : List (String × BreakdownEntry) :=
  registry.map (fun rc => (rc.1, breakdown_entry results rc.1 rc.2))

/-! ## Concrete runs for the exit-code boundary (claim C1)

Each run is a test-results map for an engine with
`total_possible_points = 10`. -/

/-- A run whose exact percentage is `70.0`. -/
def c1_run_70 : List (String × TestResult) := [("only", { score := some 7 })]

/-- A run whose exact percentage is `69.99`. -/
def c1_run_6999 : List (String × TestResult) := [("only", { score := some (6999/1000) })]

/-- A run whose exact percentage is `69.9`. -/
def c1_run_699 : List (String × TestResult) := [("only", { score := some (699/100) })]

/-! ## Concrete registry with a missing test result (claim C2) -/

/-- A registry component used to exercise the missing-result path. -/
def c2cfg : ComponentConfig := { name := "Component C", points := 5 }

/-- A one-component registry whose component has no test result. -/
def c2registry : List (String × ComponentConfig) := [("c", c2cfg)]

/-! ## `calculate_grade_old.py` — `PandasGradingEngine`

Source text is a list of lines (`content.split('\n')`); a missing
`src/pandas_basics.py` is `none`. -/

/-- One entry of `PandasGradingEngine.FUNCTION_CATEGORIES` (the fields
the embedded logic uses). -/
structure OldCategory where
  name : Line
  points : ℚ
  test_method : Line
deriving Repr, DecidableEq

/-- `PandasGradingEngine.FUNCTION_CATEGORIES`, in insertion order. -/
def FUNCTION_CATEGORIES : List (String × OldCategory) :=
  [("load_and_explore",
      ⟨cl "load_and_explore_gis_data", 2, cl "test_load_and_explore_gis_data"⟩),
   ("filter_environmental",
      ⟨cl "filter_environmental_data", 2, cl "test_filter_environmental_data"⟩),
   ("calculate_statistics",
      ⟨cl "calculate_station_statistics", 2, cl "test_calculate_station_statistics"⟩),
   ("join_station_data",
      ⟨cl "join_station_data", 5, cl "test_join_station_data"⟩),
   ("save_processed",
      ⟨cl "save_processed_data", 5, cl "test_save_processed_data"⟩),
   ("containerized_environment",
      ⟨cl "setup_containerized_environment", 5, cl "test_setup_containerized_environment"⟩)]

/-- `PandasGradingEngine.TOTAL_POSSIBLE_POINTS`. -/
def TOTAL_POSSIBLE_POINTS : ℚ := 25

/-- Body-extraction loop of `PandasGradingEngine.is_function_implemented`:
walk the lines; a line containing the header (re)enters the function;
inside the function, a `def `-opening or unindented non-blank line
stops the walk, and non-blank lines are collected stripped. -/
def oldCollectBody (header : Line) : List Line → Bool → List Line
  | [], _ => []
  | l :: ls, inF =>
    if chContains l header then oldCollectBody header ls true
    else if inF then
      if chStarts (pyStrip l) (cl "def ") ||
         (!(pyStrip l).isEmpty && !chStarts l (cl " ") && !chStarts l (cl "\t")) then []
      else if !(pyStrip l).isEmpty then pyStrip l :: oldCollectBody header ls true
      else oldCollectBody header ls true
    else oldCollectBody header ls false

/-- `PandasGradingEngine.is_function_implemented`: the body has at least
one line that is not `pass` and does not open with triple quotes.  The
Python containment check `function_start not in content` on the whole
file text is equivalent to checking each line, since the header
contains no newline.  A missing file (and the `except` path) yields
`False`. -/
def is_function_implemented (srcLines : Option (List Line)) (function_name : Line) : Bool :=
  match srcLines with
  | none => false
  | some lines =>
    let header := cl "def " ++ function_name ++ cl "("
    if lines.any (fun l => chContains l header) then
      let body := oldCollectBody header lines false
      let nonTrivial := body.filter (fun l =>
        !(l == cl "pass") && !chStarts l (cl "\x22\x22\x22") && !chStarts l (cl "\x27\x27\x27"))
      decide (nonTrivial.length > 0)
    else false

/-- Per-category result dictionary built by
`PandasGradingEngine.parse_test_output`. -/
structure OldResult where
  passed : Bool
  error : Option String
  score : ℚ
  function_implemented : Bool
deriving Repr, DecidableEq

/-- The initial "all tests failed" entry of `parse_test_output`. -/
def initOldResult : OldResult :=
  { passed := false, error := none, score := 0, function_implemented := false }

/-- Effect of one stdout line on one category's entry in
`parse_test_output`: lines mentioning the category's test method set
the entry according to the PASSED/FAILED/SKIPPED marker, other lines
leave it unchanged. -/
def parseLineUpdate (impl : Bool) (cfg : OldCategory) (cur : OldResult) (rawLine : Line) :
    OldResult :=
  let line := pyStrip rawLine
  if chContains line cfg.test_method then
    if chContains line (cl "PASSED") || chContains line (cl "✓") then
      { passed := true, error := none, score := cfg.points, function_implemented := impl }
    else if chContains line (cl "FAILED") || chContains line (cl "✗") then
      { passed := false
        error := some (if impl then "Test failed - check function logic and implementation"
                       else "Function not implemented - replace pass statement with code")
        score := if impl then 1 else 0
        function_implemented := impl }
    else if chContains line (cl "SKIPPED") then
      { passed := false, error := some "Test skipped - check for import or syntax errors"
        score := 0, function_implemented := impl }
    else cur
  else cur

/-- `PandasGradingEngine.parse_test_output`, per category.  The Python
code iterates stdout lines in the outer loop and categories in the
inner loop, updating a dictionary entry per category; since the
entries are independent, the final entry of one category is the fold
of its updates over the stdout lines. -/
def parse_test_output (srcLines : Option (List Line)) (stdoutLines : List Line)
    (cfg : OldCategory) : OldResult :=
  let impl := is_function_implemented srcLines cfg.name
  stdoutLines.foldl (parseLineUpdate impl cfg) initOldResult

/-- The full results dictionary of a `calculate_grade_old.py` run. -/
def old_run_results (srcLines : Option (List Line)) (stdoutLines : List Line) :
    List (String × OldResult) :=
  FUNCTION_CATEGORIES.map (fun c => (c.1, parse_test_output srcLines stdoutLines c.2))

/-- `count_passed_tests`. -/
def count_passed_tests (results : List (String × OldResult)) : ℕ :=
  (results.filter (fun r => r.2.passed)).length

/-- `count_implemented_functions`. -/
def count_implemented_functions (results : List (String × OldResult)) : ℕ :=
  (results.filter (fun r => r.2.function_implemented)).length

/-- The letter-grade if-chain of `PandasGradingEngine.calculate_grade`. -/
def old_letter_grade (percentage : ℚ) : String :=
  if 90 ≤ percentage then "A"
  else if 80 ≤ percentage then "B"
  else if 70 ≤ percentage then "C"
  else if 60 ≤ percentage then "D"
  else "F"

/-- `self.test_results.get(key, {}).get('passed')` truthiness. -/
def oldLookupPassed (results : List (String × OldResult)) (key : String) : Bool :=
  ((results.lookup key).map (fun r => r.passed)).getD false

/-- The fields of the `calculate_grade_old.py` grade report that the
embedded logic reads. -/
structure OldReport where
  total_points : ℚ
  possible_points : ℚ
  percentage : ℚ
  letter_grade : String
  tests_passed : ℕ
  total_functions : ℕ
  functions_implemented : ℕ
  implementation_rate : ℚ
  skills_assessment : List (String × String)
deriving Repr, DecidableEq

/-- `PandasGradingEngine.calculate_grade` (the report fields used by
`set_environment_variables` and `main`). -/
def old_calculate_grade (results : List (String × OldResult)) : OldReport :=
  let total_score := (results.map (fun r => r.2.score)).sum
  let percentage := total_score / TOTAL_POSSIBLE_POINTS * 100
  { total_points := pyRound 2 total_score
    possible_points := TOTAL_POSSIBLE_POINTS
    percentage := pyRound 1 percentage
    letter_grade := old_letter_grade percentage
    tests_passed := count_passed_tests results
    total_functions := FUNCTION_CATEGORIES.length
    functions_implemented := count_implemented_functions results
    implementation_rate :=
      pyRound 1 ((count_implemented_functions results : ℚ) / (FUNCTION_CATEGORIES.length : ℚ) * 100)
    skills_assessment :=
      [("core_data_loading",
          if oldLookupPassed results "load_and_explore" then "competent" else "developing"),
       ("basic_filtering",
          if oldLookupPassed results "filter_environmental" then "competent" else "developing"),
       ("essential_statistics",
          if oldLookupPassed results "calculate_statistics" then "competent" else "developing"),
       ("foundation_integration",
          if oldLookupPassed results "join_station_data" then "competent" else "developing")] }

/-- `PandasGradingEngine.set_environment_variables`: the eight
numeric/letter environment variables are read from fields that always
exist; the four skill variables subscript `skills_assessment` with
keys that may be missing, raising `KeyError`.  The result is the
control-flow outcome: `KeyError` on the first missing key. -/
def set_environment_variables (report : OldReport) : Except String Unit :=
  match report.skills_assessment.lookup "data_loading_proficiency" with
  | none => .error "KeyError: data_loading_proficiency"
  | some _ =>
  match report.skills_assessment.lookup "data_filtering_proficiency" with
  | none => .error "KeyError: data_filtering_proficiency"
  | some _ =>
  match report.skills_assessment.lookup "statistical_analysis_proficiency" with
  | none => .error "KeyError: statistical_analysis_proficiency"
  | some _ =>
  match report.skills_assessment.lookup "data_integration_proficiency" with
  | none => .error "KeyError: data_integration_proficiency"
  | some _ => .ok ()

/-- `calculate_grade_old.py`'s `main`: runs tests, calculates the
grade, then calls `set_environment_variables` before
`save_grade_report`; an uncaught `KeyError` there aborts `main`
(non-zero process exit) before the report is saved.  The normal path
would return `0` iff `percentage >= 70`. -/
def old_main (srcLines : Option (List Line)) (stdoutLines : List Line) : Except String ℤ :=
  let results := old_run_results srcLines stdoutLines
  let report := old_calculate_grade results
  match set_environment_variables report with
  | .error e => .error e
  | .ok _ => .ok (if 70 ≤ report.percentage then 0 else 1)

/-! ## Concrete inputs for claim C3 -/

/-- A source file defining `join_station_data` with its body on the
`def` line itself: the extractor collects an empty body, so the
detector reports the function as not implemented. -/
def c3src : List Line :=
  [cl "def join_station_data(): return stations_df.merge(readings_df)"]

/-- A pytest stdout line reporting the matching test as PASSED. -/
def c3stdout : List Line :=
  [cl "tests/test_pandas_basics.py::test_join_station_data PASSED"]

/-- The `join_station_data` registry entry. -/
def c3cat : OldCategory :=
  ((FUNCTION_CATEGORIES.lookup "join_station_data").getD ⟨[], 0, []⟩)

/-- The Boolean outcome invariant of claim C3 for one category's
result: the score is within `[0, points]`, a passed test earns full
points, and an outcome that neither passed nor was detected as
implemented scores `0`. -/
def oldOutcomeInv (cfg : OldCategory) (r : OldResult) : Bool :=
  decide (0 ≤ r.score) && decide (r.score ≤ cfg.points) &&
  (!r.passed || decide (r.score = cfg.points)) &&
  (r.function_implemented || r.passed || decide (r.score = 0))

/-! ## Test runner (`_run_pytest_test` of `calculate_grade.py` and
`grade_assignment.py`)

The external process is modelled by its observable outcome: it
completed with an exit status and captured output, it timed out
(`subprocess.TimeoutExpired`), or launching it raised
(`except Exception`). -/

/-- Outcome of the `subprocess.run` call. -/
inductive ProcOutcome where
  | completed (returncode : ℤ) (stdout stderr : String)
  | timeout
  | launchFailed (msg : String)
deriving Repr, DecidableEq

/-- The dictionary `_run_pytest_test` returns. -/
structure PytestOutcome where
  passed : Bool
  error : String
  stdout : String
  stderr : String
deriving Repr, DecidableEq

/-- `_run_pytest_test` (identical outcome mapping in
`calculate_grade.py` and `grade_assignment.py`): the whole body is
wrapped in `try`/`except`, so the function is total — every process
outcome is mapped to a well-formed result dictionary. -/
def run_pytest_test (o : ProcOutcome) : PytestOutcome :=
  match o with
  | .completed rc out err =>
    let passed := rc == 0
    { passed := passed
      error := if passed then "" else out ++ err
      stdout := out, stderr := err }
  | .timeout =>
    { passed := false, error := "Test execution timed out", stdout := "", stderr := "" }
  | .launchFailed msg =>
    { passed := false, error := "Test execution error: " ++ msg, stdout := "", stderr := "" }

/-! ## `calculate_grade.py` — `PandasAnalysisGrader` -/

/-- The observable environment of one `PandasAnalysisGrader` run:
whether `src/pandas_basics.py` exists, its size and text, and the
outcome of the pytest process for each test selector. -/
structure GraderEnv where
  pandas_file_exists : Bool
  pandas_file_size : ℕ
  pandas_content : List Char
  outcome : String → ProcOutcome

/-- `PandasAnalysisGrader.define_component_categories`. -/
def define_component_categories : List (String × ComponentConfig) :=
  [("load_and_explore",
      { name := "Load and Explore Data", points := 2
        description := "Load CSV data and perform basic exploratory analysis" }),
   ("filter_data",
      { name := "Filter Environmental Data", points := 2
        description := "Filter data using boolean indexing and conditions" }),
   ("calculate_statistics",
      { name := "Calculate Station Statistics", points := 2
        description := "Calculate summary statistics using groupby operations" }),
   ("join_data",
      { name := "Join Station Data", points := 2
        description := "Join datasets using pandas merge functionality" }),
   ("save_data",
      { name := "Save Processed Data", points := 1
        description := "Save processed data to CSV format" }),
   ("code_quality",
      { name := "Code Quality", points := 1
        description := "Clean, readable code with proper structure" })]

/-- `total_possible_points=10` passed to the base constructor in
`calculate_grade.py`. -/
def pandas_total_possible_points : ℚ := 10

/-- The dictionary shape every `_assess_*` method of
`PandasAnalysisGrader` returns: exactly the keys `score`,
`max_points` and `feedback` — no `passed`, no
`implementation_detected`. -/
def mkAssessResult (score maxPts : ℚ) (fb : List String) : TestResult :=
  { score := some score, max_points := some maxPts, feedback := some fb }

/-- `_assess_load_and_explore` (2 points): early return when
`src/pandas_basics.py` is missing, otherwise full credit iff the
`TestLoadAndExploreGISData` pytest run passed. -/
def assess_load_and_explore (env : GraderEnv) : TestResult :=
  if env.pandas_file_exists = false then
    mkAssessResult 0 2 ["❌ src/pandas_basics.py file not found"]
  else
    let r := run_pytest_test (env.outcome "TestLoadAndExploreGISData")
    if r.passed then
      mkAssessResult 2 2 ["✅ Load and explore function implemented correctly"]
    else
      mkAssessResult 0 2 ["❌ Load and explore test failed: " ++ r.error]

/-- `_assess_filter_data` (2 points). -/
def assess_filter_data (env : GraderEnv) : TestResult :=
  let r := run_pytest_test (env.outcome "TestFilterEnvironmentalData")
  if r.passed then
    mkAssessResult 2 2 ["✅ Filter data function implemented correctly"]
  else
    mkAssessResult 0 2 ["❌ Filter data test failed: " ++ r.error]

/-- `_assess_calculate_statistics` (2 points). -/
def assess_calculate_statistics (env : GraderEnv) : TestResult :=
  let r := run_pytest_test (env.outcome "TestCalculateStationStatistics")
  if r.passed then
    mkAssessResult 2 2 ["✅ Calculate statistics function implemented correctly"]
  else
    mkAssessResult 0 2 ["❌ Calculate statistics test failed: " ++ r.error]

/-- `_assess_join_data` (2 points). -/
def assess_join_data (env : GraderEnv) : TestResult :=
  let r := run_pytest_test (env.outcome "TestJoinStationData")
  if r.passed then
    mkAssessResult 2 2 ["✅ Join data function implemented correctly"]
  else
    mkAssessResult 0 2 ["❌ Join data test failed: " ++ r.error]

/-- `_assess_save_data` (1 point). -/
def assess_save_data (env : GraderEnv) : TestResult :=
  let r := run_pytest_test (env.outcome "TestSaveProcessedData")
  if r.passed then
    mkAssessResult 1 1 ["✅ Save data function implemented correctly"]
  else
    mkAssessResult 0 1 ["❌ Save data test failed: " ++ r.error]

/-- The function names `_assess_code_quality` searches for. -/
def pandas_required_functions : List Line :=
  [cl "load_and_explore_gis_data",
   cl "filter_environmental_data",
   cl "calculate_station_statistics",
   cl "join_station_data",
   cl "save_processed_data"]

/-- `_assess_code_quality` (1 point): 0 on a missing or tiny file;
otherwise 0.3 for a pandas import, 0.4 for at least 4 of the 5
required `def`s, 0.3 for comments or docstrings, capped at 1.
Feedback text (which interpolates counts) is abridged to the static
message prefixes; no claim reads it. -/
def assess_code_quality (env : GraderEnv) : TestResult :=
  if env.pandas_file_exists = false then
    mkAssessResult 0 1 ["❌ pandas_basics.py file not found"]
  else if env.pandas_file_size < 500 then
    mkAssessResult 0 1 ["❌ Implementation appears incomplete (file too small)"]
  else
    let c := env.pandas_content
    let s1 : ℚ :=
      if chContains c (cl "import pandas") || chContains c (cl "from pandas") then 3/10 else 0
    let functionsFound :=
      (pandas_required_functions.filter (fun f => chContains c (cl "def " ++ f))).length
    let s2 : ℚ := if 4 ≤ functionsFound then 4/10 else 0
    let s3 : ℚ :=
      if chContains c (cl "#") || chContains c (cl "\x22\x22\x22") then 3/10 else 0
    mkAssessResult (min (s1 + s2 + s3) 1) 1 ["code structure assessment"]

/-- `PandasAnalysisGrader.run_tests`: the six per-component result
dictionaries, keyed as in the registry. -/
def run_tests (env : GraderEnv) : List (String × TestResult) :=
  [("load_and_explore", assess_load_and_explore env),
   ("filter_data", assess_filter_data env),
   ("calculate_statistics", assess_calculate_statistics env),
   ("join_data", assess_join_data env),
   ("save_data", assess_save_data env),
   ("code_quality", assess_code_quality env)]

/-! ## Implementation detector of `PythonFunctionGradingEngine`
(`BaseGradingEngine.py`) -/

/-- `implementation_indicators` of `detect_function_implementation`. -/
def implementation_indicators : List Line :=
  [cl "return", cl "=", cl "if", cl "for", cl "while", cl "try", cl "with"]

/-- Body-extraction loop of `detect_function_implementation`: a line
containing the header (re)enters the function; inside the function an
unindented non-blank line stops the walk; all other lines (including
blank ones) are collected raw. -/
def newCollectBody (header : Line) : List Line → Bool → List Line
  | [], _ => []
  | l :: ls, inF =>
    if chContains l header then newCollectBody header ls true
    else if inF then
      if !(pyStrip l).isEmpty && !chStarts l (cl " ") && !chStarts l (cl "\t") then []
      else l :: newCollectBody header ls true
    else newCollectBody header ls false

/-- `detect_function_implementation` restricted to one file's lines:
implemented when the cleaned body (stripped, non-blank, non-`#` lines)
has more than 2 lines, or when some cleaned line contains an indicator
token but neither `pass` nor `None`. -/
def detect_in_file (function_name : Line) (lines : List Line) : Bool :=
  let header := cl "def " ++ function_name ++ cl "("
  if lines.any (fun l => chContains l header) then
    let body := newCollectBody header lines false
    let nonEmpty := (body.map pyStrip).filter (fun s => !s.isEmpty && !chStarts s (cl "#"))
    if 2 < nonEmpty.length then true
    else nonEmpty.any (fun l =>
      implementation_indicators.any (fun ind => chContains l ind) &&
      !chContains l (cl "pass") && !chContains l (cl "None"))
  else false

/-- `PythonFunctionGradingEngine.detect_function_implementation` over
the scanned files (each file given as its list of lines); `False` when
the header appears in no file. -/
def detect_function_implementation (function_name : Line) (files : List (List Line)) : Bool :=
  files.any (detect_in_file function_name)

/-- Follows the specification's wording (not the source): strip blank
lines, comment-only lines, and lines belonging to a triple-quoted
docstring block from a function body.  Used to state claim C6's
stripping clause for comparison with the detectors. -/
def specStripBody : Bool → List Line → List Line
  | _, [] => []
  | inDoc, l :: ls =>
    let s := pyStrip l
    if inDoc then
      if chContains s (cl "\x22\x22\x22") then specStripBody false ls
      else specStripBody true ls
    else if s.isEmpty then specStripBody false ls
    else if chStarts s (cl "#") then specStripBody false ls
    else if chStarts s (cl "\x22\x22\x22") then
      if 6 ≤ s.length && (chStarts s.reverse (cl "\x22\x22\x22").reverse) then
        specStripBody false ls
      else specStripBody true ls
    else s :: specStripBody false ls

/-! ### Concrete sources for claim C6 -/

/-- A stub body: only a placeholder `pass`. -/
def c6_src_stub : List Line := [cl "def foo():", cl "    pass"]

/-- A body with an assignment and a `return`. -/
def c6_src_impl : List Line := [cl "def foo():", cl "    x = 1", cl "    return x"]

/-- A file that does not define `foo` at all. -/
def c6_src_other : List Line := [cl "def bar():", cl "    pass"]

/-- A stub whose docstring spans three lines before the `pass`. -/
def c6_src_docstub : List Line :=
  [cl "def foo():", cl "    \x22\x22\x22", cl "    Docstring.", cl "    \x22\x22\x22", cl "    pass"]

/-- The body lines of `c6_src_docstub` as the detector extracts them. -/
def c6_docstub_body : List Line :=
  newCollectBody (cl "def foo(") c6_src_docstub false

/-! ## `grade_assignment.py` — abstract-method model (claim C9)

Python's `ABCMeta` refuses to instantiate a subclass that leaves any
`@abstractmethod` of the base without an override, raising
`TypeError`.  The method tables below are transcribed from the class
bodies. -/

/-- The `@abstractmethod`s declared by `BaseGradingEngine`. -/
def base_abstract_methods : List String :=
  ["define_component_categories", "run_tests", "get_professional_context"]

/-- The methods defined by `PandasAnalysisGrader` in
`grade_assignment.py`. -/
def grade_assignment_methods : List String :=
  ["__init__", "get_professional_context", "assess_assignment",
   "_assess_load_and_explore", "_assess_filter_data", "_assess_calculate_statistics",
   "_assess_join_data", "_assess_save_data", "_assess_validate_coordinates",
   "_assess_multi_condition_filtering", "_assess_temporal_analysis",
   "_assess_ai_reflection", "_assess_code_quality", "_run_pytest_test"]

/-- The abstract methods of the base that `grade_assignment.py`'s
subclass leaves without an override. -/
def grade_assignment_unoverridden : List String :=
  base_abstract_methods.filter (fun m => !grade_assignment_methods.contains m)

/-- `ABCMeta` instantiation of `grade_assignment.py`'s
`PandasAnalysisGrader`: `TypeError` iff some abstract method is
unoverridden. -/
def instantiate_grade_assignment_grader : Except String Unit :=
  if grade_assignment_unoverridden.isEmpty then .ok ()
  else .error "TypeError"

/-- `grade_assignment.py`'s `main`: the `try` block begins by
instantiating the grader; `except Exception` returns `1`.  The success
branch (never reached for this subclass) would continue with
`calculate_grade`; its value is irrelevant to claim C9 and modelled as
the CI success exit code. -/
def grade_assignment_main (_assignment_dir : String) (_verbose : Bool) : ℤ :=
  match instantiate_grade_assignment_grader with
  | .error _ => 1
  | .ok _ => 0

end Grading

namespace Grading

/-! ## Helper lemmas -/

/-- The exact percentages of the three C1 runs. -/
theorem c1_exact_percentages :
    exact_percentage c1_run_70 10 = 70 ∧
    exact_percentage c1_run_6999 10 = 6999/100 ∧
    exact_percentage c1_run_699 10 = 699/10 := by
  refine ⟨?_, ?_, ?_⟩ <;>
    norm_num [exact_percentage, base_total_points, c1_run_70, c1_run_6999, c1_run_699]

/-- `round(69.99, 1) = 70.0`. -/
theorem pyRound_6999 : pyRound 1 (6999/100) = 70 := by
  have h : ⌊(6999/100 : ℚ) * 10 ^ 1⌋ = 699 := by
    rw [Int.floor_eq_iff] ; norm_num
  simp only [pyRound, roundHalfEven, h]
  norm_num

/-- `round(70.0, 1) = 70.0`. -/
theorem pyRound_70 : pyRound 1 (70 : ℚ) = 70 := by
  have h : ⌊(70 : ℚ) * 10 ^ 1⌋ = 700 := by
    rw [Int.floor_eq_iff] ; norm_num
  simp only [pyRound, roundHalfEven, h]
  norm_num

/-- `round(69.9, 1) = 69.9`. -/
theorem pyRound_699 : pyRound 1 (699/10 : ℚ) = 699/10 := by
  have h : ⌊(699/10 : ℚ) * 10 ^ 1⌋ = 699 := by
    rw [Int.floor_eq_iff] ; norm_num
  simp only [pyRound, roundHalfEven, h]
  norm_num

/-- `round(0, 1) = 0`. -/
theorem pyRound_zero : pyRound 1 (0 : ℚ) = 0 := by
  have h : ⌊(0 : ℚ) * 10 ^ 1⌋ = 0 := by
    rw [Int.floor_eq_iff] ; norm_num
  simp only [pyRound, roundHalfEven, h]
  norm_num

/-! ## Claim C1 -/

/-- C1 counterexample: the claim says a run whose exact percentage is
`69.99` yields a non-zero exit code; in the code `get_exit_code`
compares the threshold against the report's `percentage`, which is
`round(percentage, 1)`.  `69.99` rounds to `70.0`, so this run yields
exit code `0`. -/
theorem C1_counterexample :
    exact_percentage c1_run_6999 10 = 6999/100 ∧
    get_exit_code c1_run_6999 10 = 0 := by
  refine ⟨c1_exact_percentages.2.1, ?_⟩
  simp only [get_exit_code, reported_percentage, c1_exact_percentages.2.1, pyRound_6999]
  norm_num

/-- C1 amended: the CI success signal is the threshold `>= 70.0`
applied to the percentage rounded to one decimal (the report's
`percentage` field), not to the exact percentage.  A run of exact
percentage `70.0` exits `0`; a run of exact percentage `69.99` rounds
to `70.0` and also exits `0`; a run of exact percentage `69.9` exits
`1`. -/
theorem C1_exit_code_uses_rounded_percentage :
    (exact_percentage c1_run_70 10 = 70 ∧ get_exit_code c1_run_70 10 = 0) ∧
    (exact_percentage c1_run_6999 10 = 6999/100 ∧
      reported_percentage c1_run_6999 10 = 70 ∧ get_exit_code c1_run_6999 10 = 0) ∧
    (exact_percentage c1_run_699 10 = 699/10 ∧ get_exit_code c1_run_699 10 = 1) := by
  obtain ⟨h70, h6999, h699⟩ := c1_exact_percentages
  refine ⟨⟨h70, ?_⟩, ⟨h6999, ?_, ?_⟩, h699, ?_⟩ <;>
    simp only [get_exit_code, reported_percentage, h70, h6999, h699,
      pyRound_70, pyRound_6999, pyRound_699] <;>
    norm_num

/-! ## Claim C5 -/

/-- C5: letter grades are assigned by checking the thresholds from
highest to lowest with inclusive lower bounds; in particular `90.0`
gives `A`, `89.9` gives `B`, `80.0` gives `B`, `70.0` gives `C`,
`60.0` gives `D` and `59.9` gives `F`. -/
theorem C5_letter_grade_thresholds :
    (∀ p : ℚ, calculate_letter_grade p =
        if 90 ≤ p then "A" else if 80 ≤ p then "B" else if 70 ≤ p then "C"
        else if 60 ≤ p then "D" else "F") ∧
    calculate_letter_grade 90 = "A" ∧ calculate_letter_grade (899/10) = "B" ∧
    calculate_letter_grade 80 = "B" ∧ calculate_letter_grade 70 = "C" ∧
    calculate_letter_grade 60 = "D" ∧ calculate_letter_grade (599/10) = "F" := by
  have hgen : ∀ p : ℚ, calculate_letter_grade p =
      if 90 ≤ p then "A" else if 80 ≤ p then "B" else if 70 ≤ p then "C"
      else if 60 ≤ p then "D" else "F" := by
    intro p
    by_cases h90 : (90:ℚ) ≤ p <;> by_cases h80 : (80:ℚ) ≤ p <;>
      by_cases h70 : (70:ℚ) ≤ p <;> by_cases h60 : (60:ℚ) ≤ p <;>
      by_cases h0 : (0:ℚ) ≤ p <;>
      simp [calculate_letter_grade, GRADE_THRESHOLDS, List.find?, h90, h80, h70, h60, h0]
  refine ⟨hgen, ?_, ?_, ?_, ?_, ?_, ?_⟩ <;> rw [hgen] <;> norm_num

/-! ## Claim C2 -/

/-- Keys absent from an association list are not touched by
`List.filter`: if `lookup id` is `none`, filtering out `id` changes
nothing. -/
theorem filter_of_lookup_none {β : Type} (id : String)
    (l : List (String × β)) (h : l.lookup id = none) :
    l.filter (fun r => !(r.1 == id)) = l := by
  induction l with
  | nil => rfl
  | cons a t ih =>
    obtain ⟨k, v⟩ := a
    rw [List.lookup] at h
    cases hk : (id == k) with
    | true => rw [hk] at h ; simp at h
    | false =>
      rw [hk] at h
      have hne : ¬(k = id) := fun he => by simp [he] at hk
      simp only [List.filter_cons, beq_eq_false_iff_ne, ne_eq, hne,
        not_false_eq_true, Bool.not_true, Bool.not_false, ih h]
      simp [hne]

/-- C2 amended: a component id present in the registry but absent from
the test-results map receives the empty outcome `{}`; under the
engine's defaults (`passed` defaults to `False`, `score` to `0`, but
`implementation_detected` to `True`) it earns `0` points, its status is
`'implemented_with_errors'` (not `'not_implemented'`), and it is not
counted in `components_implemented`, which only ranges over entries of
the results map. -/
theorem C2_missing_component_defaults
    (registry : List (String × ComponentConfig))
    (results : List (String × TestResult)) (id : String)
    (cfg : ComponentConfig)
    (_hreg : registry.lookup id = some cfg)
    (habs : results.lookup id = none) :
    (breakdown_entry results id cfg).points_earned = 0 ∧
    (breakdown_entry results id cfg).status = "implemented_with_errors" ∧
    components_implemented results =
      components_implemented (results.filter (fun r => !(r.1 == id))) := by
  refine ⟨?_, ?_, ?_⟩
  · simp [breakdown_entry, habs, emptyResult]
  · simp [breakdown_entry, habs, emptyResult, determine_component_status]
  · rw [filter_of_lookup_none id results habs]

/-- Witness for C2: a concrete one-component registry with an empty
results map. -/
theorem C2_missing_component_defaults_witness :
    (breakdown_entry [] "c" c2cfg).points_earned = 0 ∧
    (breakdown_entry [] "c" c2cfg).status = "implemented_with_errors" ∧
    components_implemented ([] : List (String × TestResult)) =
      components_implemented
        (([] : List (String × TestResult)).filter (fun r => !(r.1 == "c"))) :=
  C2_missing_component_defaults c2registry [] "c" c2cfg rfl rfl

/-- C2 counterexample: the claim says a missing component's status is
`'not_implemented'`; in the code the synthesized empty outcome defaults
`implementation_detected` to `True`, so the status is
`'implemented_with_errors'`. -/
theorem C2_counterexample :
    determine_component_status emptyResult = "implemented_with_errors" ∧
    (determine_component_status emptyResult == "not_implemented") = false ∧
    (breakdown_entry [] "c" c2cfg).status = "implemented_with_errors" := by
  refine ⟨rfl, rfl, rfl⟩

/-! ## Claim C3 -/

/-- One parse step preserves the outcome invariant (for categories
worth at least the 1-point partial credit). -/
theorem parseLineUpdate_inv (impl : Bool) (cfg : OldCategory) (h : (1:ℚ) ≤ cfg.points)
    (cur : OldResult) (hcur : oldOutcomeInv cfg cur = true) (l : Line) :
    oldOutcomeInv cfg (parseLineUpdate impl cfg cur l) = true := by
  have h0 : (0:ℚ) ≤ cfg.points := le_trans (by norm_num) h
  simp only [parseLineUpdate]
  split_ifs <;>
    first
      | exact hcur
      | simp_all [oldOutcomeInv, Bool.and_eq_true, Bool.or_eq_true, decide_eq_true_eq]

/-- Folding parse steps over the stdout lines preserves the outcome
invariant. -/
theorem parse_foldl_inv (impl : Bool) (cfg : OldCategory) (h : (1:ℚ) ≤ cfg.points) :
    ∀ (ls : List Line) (cur : OldResult), oldOutcomeInv cfg cur = true →
      oldOutcomeInv cfg (ls.foldl (parseLineUpdate impl cfg) cur) = true := by
  intro ls
  induction ls with
  | nil => intro cur hc ; exact hc
  | cons l ls ih =>
    intro cur hc
    exact ih _ (parseLineUpdate_inv impl cfg h cur hc l)

/-- `parse_test_output` satisfies the outcome invariant for any source
file and stdout. -/
theorem parse_test_output_inv (cfg : OldCategory) (h : (1:ℚ) ≤ cfg.points)
    (src : Option (List Line)) (out : List Line) :
    oldOutcomeInv cfg (parse_test_output src out cfg) = true := by
  have h0 : (0:ℚ) ≤ cfg.points := le_trans (by norm_num) h
  simp only [parse_test_output]
  exact parse_foldl_inv _ cfg h out initOldResult (by simp [oldOutcomeInv, initOldResult, h0])

/-- C3 amended: for every outcome produced by a grading run,
`0 <= score <= points` and `passed` implies `score == points`; but an
outcome scores `0` only when it neither passed nor was detected as
implemented — a test that passes earns full points even when
`implementation_detected` is `False`.  The `calculate_grade.py`
assessor likewise only awards `0` or the full 2 points. -/
theorem C3_outcome_invariants :
    (∀ (src : Option (List Line)) (out : List Line),
      FUNCTION_CATEGORIES.map
          (fun c => oldOutcomeInv c.2 (parse_test_output src out c.2)) =
        [true, true, true, true, true, true]) ∧
    (∀ env : GraderEnv,
      (assess_load_and_explore env).score.getD 0 = 0 ∨
        (assess_load_and_explore env).score.getD 0 = 2) := by
  constructor
  · intro src out
    simp only [FUNCTION_CATEGORIES, List.map_cons, List.map_nil]
    rw [parse_test_output_inv _ (by norm_num) src out,
      parse_test_output_inv _ (by norm_num) src out,
      parse_test_output_inv _ (by norm_num) src out,
      parse_test_output_inv _ (by norm_num) src out,
      parse_test_output_inv _ (by norm_num) src out,
      parse_test_output_inv _ (by norm_num) src out]
  · intro env
    simp only [assess_load_and_explore]
    split_ifs <;> simp [mkAssessResult]

/-- C3 counterexample: a source file defining `join_station_data` with
its body on the `def` line is classified as not implemented, yet a
PASSED stdout line awards the full 5 points — refuting
"`implementation_detected == False` implies `score == 0`". -/
theorem C3_counterexample :
    is_function_implemented (some c3src) c3cat.name = false ∧
    (parse_test_output (some c3src) c3stdout c3cat).function_implemented = false ∧
    (parse_test_output (some c3src) c3stdout c3cat).passed = true ∧
    (parse_test_output (some c3src) c3stdout c3cat).score = 5 ∧
    ((parse_test_output (some c3src) c3stdout c3cat).score == 0) = false := by
  decide

/-! ## Claim C4 -/

/-- C4: in `calculate_grade_old.py` the registry's points sum to 21
while `TOTAL_POSSIBLE_POINTS` — and the `possible_points` reported on
every run — is 25; the code contradicts its own docstring ("18 total
points") and registry comment ("10 points total").  The
`calculate_grade.py` configuration does satisfy the claim: its
registry sums to its declared total of 10. -/
theorem C4_registry_sum_vs_total :
    (FUNCTION_CATEGORIES.map (fun c => c.2.points)).sum = 21 ∧
    TOTAL_POSSIBLE_POINTS = 25 ∧
    (((FUNCTION_CATEGORIES.map (fun c => c.2.points)).sum : ℚ) ==
        TOTAL_POSSIBLE_POINTS) = false ∧
    (∀ results : List (String × OldResult),
      (old_calculate_grade results).possible_points = 25) ∧
    (define_component_categories.map (fun c => c.2.points)).sum = 10 ∧
    pandas_total_possible_points = 10 := by
  have hsum : (FUNCTION_CATEGORIES.map (fun c => c.2.points)).sum = 21 := by
    simp [FUNCTION_CATEGORIES]
    norm_num
  refine ⟨hsum, rfl, ?_, fun results => rfl, ?_, rfl⟩
  · rw [hsum] ; rfl
  · simp [define_component_categories]
    norm_num

/-! ## Claim C6 -/

/-- C6 counterexample: a stub whose body is a three-line docstring
followed by `pass` strips (per the claim's rule) to just the
placeholder, yet both detectors classify it as implemented — the code
never strips triple-quoted docstring lines. -/
theorem C6_counterexample :
    specStripBody false c6_docstub_body = [cl "pass"] ∧
    detect_function_implementation (cl "foo") [c6_src_docstub] = true ∧
    is_function_implemented (some c6_src_docstub) (cl "foo") = true := by
  decide

/-- C6 amended: the detectors strip blank lines and `#`-comment lines
but not docstring lines.  A body that is only a placeholder `pass`
yields `False`; a body with an assignment and a `return` yields
`True`; a function whose header appears in no scanned file (or whose
source file is missing) yields `False`; but a stub whose docstring
spans three or more lines is classified as implemented. -/
theorem C6_detector_behaviour :
    detect_function_implementation (cl "foo") [c6_src_stub] = false ∧
    detect_function_implementation (cl "foo") [c6_src_impl] = true ∧
    detect_function_implementation (cl "foo") [c6_src_other] = false ∧
    detect_function_implementation (cl "foo") [] = false ∧
    detect_function_implementation (cl "foo") [c6_src_docstub] = true ∧
    is_function_implemented (some c6_src_stub) (cl "foo") = false ∧
    is_function_implemented (some c6_src_impl) (cl "foo") = true ∧
    is_function_implemented (some c6_src_other) (cl "foo") = false ∧
    is_function_implemented none (cl "foo") = false := by
  decide

/-! ## Claim C7 -/

/-- C7: `_run_pytest_test` is total (modelled by a total function of
the process outcome) and always returns a well-formed outcome
dictionary: `passed` is true iff the process exit status is `0`; a
timeout yields a failure with the timed-out diagnostic; a launch
error yields a failure carrying the exception message. -/
theorem C7_run_pytest_total_outcomes :
    (∀ (rc : ℤ) (out err : String),
        (run_pytest_test (.completed rc out err)).passed = (rc == 0) ∧
        (run_pytest_test (.completed rc out err)).error =
          (if rc == 0 then "" else out ++ err)) ∧
    run_pytest_test .timeout =
      { passed := false, error := "Test execution timed out", stdout := "", stderr := "" } ∧
    (∀ msg, run_pytest_test (.launchFailed msg) =
      { passed := false, error := "Test execution error: " ++ msg,
        stdout := "", stderr := "" }) := by
  exact ⟨fun rc out err => ⟨rfl, rfl⟩, rfl, fun msg => rfl⟩

/-! ## Claim C8 -/

/-- Every `_assess_*` method of `calculate_grade.py` returns a
dictionary of the fixed `score`/`max_points`/`feedback` shape. -/
theorem assess_shapes (env : GraderEnv) :
    (∃ s fb, assess_load_and_explore env = mkAssessResult s 2 fb) ∧
    (∃ s fb, assess_filter_data env = mkAssessResult s 2 fb) ∧
    (∃ s fb, assess_calculate_statistics env = mkAssessResult s 2 fb) ∧
    (∃ s fb, assess_join_data env = mkAssessResult s 2 fb) ∧
    (∃ s fb, assess_save_data env = mkAssessResult s 1 fb) ∧
    (∃ s fb, assess_code_quality env = mkAssessResult s 1 fb) := by
  refine ⟨?_, ?_, ?_, ?_, ?_, ?_⟩
  · simp only [assess_load_and_explore] ; split_ifs <;> exact ⟨_, _, rfl⟩
  · simp only [assess_filter_data] ; split_ifs <;> exact ⟨_, _, rfl⟩
  · simp only [assess_calculate_statistics] ; split_ifs <;> exact ⟨_, _, rfl⟩
  · simp only [assess_join_data] ; split_ifs <;> exact ⟨_, _, rfl⟩
  · simp only [assess_save_data] ; split_ifs <;> exact ⟨_, _, rfl⟩
  · simp only [assess_code_quality] ; split_ifs <;> exact ⟨_, _, rfl⟩

/-- C8: the per-component dictionaries of `calculate_grade.py`'s
`run_tests` carry only `score`, `max_points` and `feedback` — never
`passed` or `implementation_detected` — so under the base engine's
defaults `components_passing` is `0`, `pass_rate` is `0.0`, and no
component's `detailed_breakdown` status is `'passed'`, for every run,
including runs where every test passed. -/
theorem C8_new_grader_components_never_pass :
    ∀ env : GraderEnv,
      (run_tests env).map (fun r => r.2.passed) =
        [none, none, none, none, none, none] ∧
      (run_tests env).map (fun r => r.2.implementation_detected) =
        [none, none, none, none, none, none] ∧
      (run_tests env).map
          (fun r => (r.2.score.isSome, r.2.max_points.isSome, r.2.feedback.isSome)) =
        List.replicate 6 (true, true, true) ∧
      components_passing (run_tests env) = 0 ∧
      pass_rate (run_tests env) define_component_categories.length = 0 ∧
      ((detailed_breakdown define_component_categories (run_tests env)).map
          (fun e => e.2.status)).contains "passed" = false := by
  intro env
  obtain ⟨⟨s1, f1, h1⟩, ⟨s2, f2, h2⟩, ⟨s3, f3, h3⟩, ⟨s4, f4, h4⟩, ⟨s5, f5, h5⟩,
    ⟨s6, f6, h6⟩⟩ := assess_shapes env
  have hrt : run_tests env =
      [("load_and_explore", mkAssessResult s1 2 f1),
       ("filter_data", mkAssessResult s2 2 f2),
       ("calculate_statistics", mkAssessResult s3 2 f3),
       ("join_data", mkAssessResult s4 2 f4),
       ("save_data", mkAssessResult s5 1 f5),
       ("code_quality", mkAssessResult s6 1 f6)] := by
    rw [run_tests, h1, h2, h3, h4, h5, h6]
  have hcp : components_passing (run_tests env) = 0 := by
    rw [hrt] ; simp [components_passing, mkAssessResult]
  refine ⟨?_, ?_, ?_, hcp, ?_, ?_⟩
  · rw [hrt] ; simp [mkAssessResult]
  · rw [hrt] ; simp [mkAssessResult]
  · rw [hrt] ; simp [mkAssessResult, List.replicate]
  · rw [pass_rate, hcp]
    have h6len : (define_component_categories.length : ℚ) = 6 := by
      simp [define_component_categories]
    rw [h6len]
    have : ((0 : ℕ) : ℚ) / 6 * 100 = 0 := by norm_num
    rw [this]
    exact pyRound_zero
  · rw [hrt]
    simp [detailed_breakdown, define_component_categories, breakdown_entry,
      List.lookup, determine_component_status, mkAssessResult]

/-! ## Claim C9 -/

/-- C9: `grade_assignment.py`'s `PandasAnalysisGrader` overrides
neither `define_component_categories` nor `run_tests`, so `ABCMeta`
rejects every instantiation with `TypeError`, and `main` returns exit
code `1` for every input. -/
theorem C9_grade_assignment_always_exits_1 :
    grade_assignment_unoverridden = ["define_component_categories", "run_tests"] ∧
    instantiate_grade_assignment_grader = .error "TypeError" ∧
    ∀ (d : String) (v : Bool), grade_assignment_main d v = 1 := by
  exact ⟨rfl, rfl, fun d v => rfl⟩

/-! ## Claim C10 -/

/-- C10: `calculate_grade_old.py` builds `skills_assessment` with the
keys `core_data_loading`, `basic_filtering`, `essential_statistics`
and `foundation_integration`, but `set_environment_variables` reads
`data_loading_proficiency` (and three sibling keys), so it raises
`KeyError` on every run and `main` aborts before saving the report. -/
theorem C10_env_vars_always_keyerror :
    ∀ (src : Option (List Line)) (out : List Line),
      (old_calculate_grade (old_run_results src out)).skills_assessment.map Prod.fst =
        ["core_data_loading", "basic_filtering", "essential_statistics",
         "foundation_integration"] ∧
      set_environment_variables (old_calculate_grade (old_run_results src out)) =
        .error "KeyError: data_loading_proficiency" ∧
      old_main src out = .error "KeyError: data_loading_proficiency" := by
  intro src out
  exact ⟨rfl, rfl, rfl⟩

end Grading
